import Mathlib

set_option maxHeartbeats 1000000
set_option maxRecDepth 100000

/-!
Verification development for the quantlink trade system (Counter Bridge,
MWMR shared-memory queue, and matching simulator).

Shallow embedding of:
  * `MWMRQueue` from `gateway/include/hftbase_shm.h`
  * the order-routing state machine from `gateway/src/counter_bridge.cpp`
    (`SetCombOffsetFlag`, `updatePosition`, `OnBrokerOrderCallback`,
    `OrderRequestProcessor`)
  * the matching simulator from
    `gateway/plugins/simulator/src/simulator_plugin.cpp`
    (`SendOrder`, `CancelOrder`, `ProcessOrderImmediate`, `UpdatePosition`,
    `UpdateAccount`, `CheckRisk`, `SetOpenClose`)

Numeric conventions: C++ `double` fields are modelled as `ℚ` (every
arithmetic step in the modelled code is an exact field operation on the
stored values, so the algebraic relations under test are
representation-independent); `uint32_t` counters are `Nat` with explicit
mod-`2^32` arithmetic where the code can wrap; C `int` fields are `Int`.
`std::map<std::string, V>` is modelled as an association list with
first-match lookup, in-place replace, and key-erase.
-/

namespace QTS

-- ============================================================
-- Association-list model of std::map<std::string, V>
-- ============================================================

def assocGet {β : Type} (l : List (String × β)) (k : String) : Option β :=
  match l with
  | [] => none
  | (k', v) :: rest => if k' = k then some v else assocGet rest k

def assocSet {β : Type} (l : List (String × β)) (k : String) (v : β) : List (String × β) :=
  match l with
  | [] => [(k, v)]
  | (k', v') :: rest => if k' = k then (k, v) :: rest else (k', v') :: assocSet rest k v

def assocErase {β : Type} (l : List (String × β)) (k : String) : List (String × β) :=
  l.filter (fun p => p.1 != k)

-- ============================================================
-- MWMR shared-memory queue (hftbase_shm.h)
-- ============================================================

namespace MWMR

/-- `getMinHighestPowOf2` / `next_pow2` from hftbase_shm.h: round up to the
next power of two by the or-shift cascade (`v--; v |= v>>1; ...; v+1`). -/
def nextPow2 (v : Int) : Nat :=
  if v ≤ 0 then 1
  else
    let n := (v - 1).toNat
    let n := n ||| (n >>> 1)
    let n := n ||| (n >>> 2)
    let n := n ||| (n >>> 4)
    let n := n ||| (n >>> 8)
    let n := n ||| (n >>> 16)
    let n := n ||| (n >>> 32)
    n + 1

/-- `MWMRQueue<T>` state.  `slots` holds `(data, seqNo)` pairs
(`QueueElem<T>`); the payload is modelled by the `Nat` it carries (for
`RequestMsg` payloads in scenario (e) this is the `OrderID`).  `head` is the
shared atomic header cursor, `tail` the process-local consumer cursor. -/
structure Queue where
  size : Nat
  mask : Nat
  head : Nat
  tail : Nat
  slots : List (Nat × Nat)
deriving DecidableEq

/-- `MWMRQueue<T>::Create`: size rounded to a power of two, header `head`
initialised to 1, slot array zeroed, local `tail` starts at 1. -/
def create (requested : Int) : Queue :=
  let size := nextPow2 requested
  { size := size, mask := size - 1, head := 1, tail := 1,
    slots := List.replicate size (0, 0) }

/-- `MWMRQueue<T>::enqueue`: fetch-and-add claims `myHead`, payload is
copied into slot `myHead & mask`, then the slot's `seqNo` is set to
`myHead`. -/
def enqueue (q : Queue) (v : Nat) : Queue :=
  let myHead := q.head
  let idx := myHead &&& q.mask
  { q with head := q.head + 1, slots := q.slots.set idx (v, myHead) }

/-- `MWMRQueue<T>::isEmpty`: the slot under the consumer cursor is stale iff
its `seqNo` is below `tail`. -/
def isEmpty (q : Queue) : Bool :=
  (q.slots.getD (q.tail &&& q.mask) (0, 0)).2 < q.tail

/-- `MWMRQueue<T>::dequeuePtr`: copy the slot's payload out and advance the
local cursor to `slot.seqNo + 1`. -/
def dequeuePtr (q : Queue) : Nat × Queue :=
  let slot := q.slots.getD (q.tail &&& q.mask) (0, 0)
  (slot.1, { q with tail := slot.2 + 1 })

/-- Repeated `isEmpty`/`dequeuePtr` until the queue reports empty
(fuel-bounded); returns the observed payloads and the final queue state. -/
def drainAll : Nat → Queue → List Nat × Queue
  | 0, q => ([], q)
  | fuel + 1, q =>
    if isEmpty q then ([], q)
    else
      let (v, q') := dequeuePtr q
      let (vs, q'') := drainAll fuel q'
      (v :: vs, q'')

/-- Enqueue payloads `1, 2, ..., n` (each enqueue claims the matching
sequence number since `head` starts at 1). -/
def enqueueRun (q : Queue) (n : Nat) : Queue :=
  (List.range' 1 n).foldl enqueue q

/-- The spec-scenario run: a queue created with requested capacity 4
(`head = 1`), 10 sequential enqueues claiming sequence numbers 1..10
(payload `OrderID = i` at sequence number `i`), drained by a consumer whose
local cursor starts at 1. -/
def wrapRun : Queue := enqueueRun (create 4) 10

end MWMR

-- ============================================================
-- Plugin-neutral data model (plugin/td_plugin_interface.h)
-- ============================================================

namespace Plugin

/-- `hft::plugin::OrderDirection`. -/
inductive OrderDirection
  | BUY
  | SELL
deriving DecidableEq

/-- `hft::plugin::OffsetFlag`. -/
inductive OffsetFlag
  | OPEN
  | CLOSE
  | CLOSE_TODAY
  | CLOSE_YESTERDAY
deriving DecidableEq

/-- `hft::plugin::OrderStatus`. -/
inductive OrderStatus
  | UNKNOWN
  | SUBMITTING
  | SUBMITTED
  | ACCEPTED
  | PARTIAL_FILLED
  | FILLED
  | CANCELING
  | CANCELED
  | REJECTED
  | ERROR
deriving DecidableEq

/-- `hft::plugin::PriceType`. -/
inductive PriceType
  | LIMIT
  | MARKET
  | BEST
deriving DecidableEq

/-- `hft::plugin::OrderRequest` (plugin-neutral order form). -/
structure OrderRequest where
  symbol : String
  exchange : String
  direction : OrderDirection
  offset : OffsetFlag
  price_type : PriceType
  price : ℚ
  volume : Nat
  client_order_id : String
deriving DecidableEq

/-- `hft::plugin::OrderInfo` (the fields the bridge callback reads). -/
structure OrderInfo where
  order_id : String
  client_order_id : String
  symbol : String
  exchange : String
  direction : OrderDirection
  offset : OffsetFlag
  price_type : PriceType
  price : ℚ
  volume : Nat
  traded_volume : Nat
  status : OrderStatus
  insert_time : Int
  update_time : Int
deriving DecidableEq

/-- `hft::plugin::TradeInfo`. -/
structure TradeInfo where
  trade_id : String
  order_id : String
  symbol : String
  exchange : String
  direction : OrderDirection
  offset : OffsetFlag
  price : ℚ
  volume : Nat
  trade_time : Int
deriving DecidableEq

end Plugin

-- ============================================================
-- Counter Bridge (counter_bridge.cpp, hftbase_types.h)
-- ============================================================

namespace Bridge

-- Byte constants (hftbase_types.h)
def SIDE_BUY : Nat := 66
def SIDE_SELL : Nat := 83
def CHINA_SHFE : Nat := 57
def CHINA_CFFEX : Nat := 58
def CHINA_ZCE : Nat := 59
def CHINA_DCE : Nat := 60
def CHINA_GFEX : Nat := 61

-- ResponseType enum codes (hftbase_types.h); a zeroed ResponseMsg carries
-- code 0 = NEW_ORDER_CONFIRM.
def NEW_ORDER_CONFIRM : Int := 0
def CANCEL_ORDER_CONFIRM : Int := 3
def TRADE_CONFIRM : Int := 4
def ORDER_ERROR : Int := 5
def ORS_REJECT : Int := 8
def RMS_REJECT : Int := 9

-- OrderType enum codes (hftbase_types.h)
def OT_LIMIT : Int := 1
def OT_MARKET : Int := 2

-- Open/close flag constants (counter_bridge.cpp:72-74)
def OPEN_ORDER : Int := 3
def CLOSE_TODAY_FLAG : Int := 1
def CLOSE_YESTD_FLAG : Int := 2

/-- The fields of the wire `RequestMsg` that the bridge's request loop
reads (`Contract_Description.Symbol` is flattened to `Symbol`). -/
structure RequestMsg where
  Symbol : String
  OrdType : Int
  OrderID : Nat
  Quantity : Int
  Price : ℚ
  Transaction_Type : Nat
  Exchange_Type : Nat
  StrategyID : Int
deriving DecidableEq

/-- The fields of the wire `ResponseMsg` that the bridge writes. -/
structure ResponseMsg where
  Response_Type : Int
  OrderID : Nat
  ErrorCode : Nat
  Quantity : Int
  Price : ℚ
  TimeStamp : Int
  Side : Nat
  Symbol : String
  StrategyID : Int
deriving DecidableEq

/-- `memset(&resp, 0, sizeof(resp))`: all fields zero. -/
def zeroResponse : ResponseMsg :=
  { Response_Type := 0, OrderID := 0, ErrorCode := 0, Quantity := 0,
    Price := 0, TimeStamp := 0, Side := 0, Symbol := "", StrategyID := 0 }

/-- `contractPos` (counter_bridge.cpp:60-65): the four C `int` buckets. -/
structure ContractPos where
  ONLongPos : Int
  todayLongPos : Int
  ONShortPos : Int
  todayShortPos : Int
deriving DecidableEq

def ContractPos.zero : ContractPos := ⟨0, 0, 0, 0⟩

/-- `g_mapContractPos`: symbol-keyed position ledger. -/
abbrev Ledger := List (String × ContractPos)

/-- `g_mapContractPos[symbol]` read: a `std::map` subscript
default-constructs a zero entry on miss. -/
def Ledger.getPos (l : Ledger) (sym : String) : ContractPos :=
  (assocGet l sym).getD ContractPos.zero

/-- Write back the (possibly fresh) entry the subscript created/mutated. -/
def Ledger.setPos (l : Ledger) (sym : String) (p : ContractPos) : Ledger :=
  assocSet l sym p

/-- `SetCombOffsetFlag` (counter_bridge.cpp:157-210): derive the open/close
flag from the ledger entry for the request's symbol and debit the chosen
bucket; the flag and the ledger mutation are produced together (the C++
does both under one `g_posLock` critical section). -/
def setCombOffsetFlag (ledger : Ledger) (req : RequestMsg) : Int × Ledger :=
  let symbol := req.Symbol
  let isSHFE := req.Exchange_Type = CHINA_SHFE
  let pos := ledger.getPos symbol
  if req.Transaction_Type = SIDE_BUY then
    if req.Quantity ≤ pos.todayShortPos then
      ((if isSHFE then CLOSE_TODAY_FLAG else CLOSE_YESTD_FLAG),
       ledger.setPos symbol { pos with todayShortPos := pos.todayShortPos - req.Quantity })
    else if req.Quantity ≤ pos.ONShortPos then
      (CLOSE_YESTD_FLAG,
       ledger.setPos symbol { pos with ONShortPos := pos.ONShortPos - req.Quantity })
    else
      (OPEN_ORDER, ledger.setPos symbol pos)
  else
    if req.Quantity ≤ pos.todayLongPos then
      ((if isSHFE then CLOSE_TODAY_FLAG else CLOSE_YESTD_FLAG),
       ledger.setPos symbol { pos with todayLongPos := pos.todayLongPos - req.Quantity })
    else if req.Quantity ≤ pos.ONLongPos then
      (CLOSE_YESTD_FLAG,
       ledger.setPos symbol { pos with ONLongPos := pos.ONLongPos - req.Quantity })
    else
      (OPEN_ORDER, ledger.setPos symbol pos)

/-- `CachedOrderInfo` (counter_bridge.cpp:79-87). -/
structure CachedOrderInfo where
  order_id : Nat
  strategy_id : Int
  symbol : String
  exchange : String
  side : Nat
  client_order_id : String
  openCloseFlag : Int
deriving DecidableEq

/-- `updatePosition` (counter_bridge.cpp:217-257): credit today buckets on
open trade confirms; on reject/cancel responses credit back the bucket the
`SetCombOffsetFlag` freeze debited.  The `std::map` subscript creates the
entry even on the no-op paths. -/
def updatePositionBridge (ledger : Ledger) (resp : ResponseMsg)
    (info : CachedOrderInfo) : Ledger :=
  let pos := ledger.getPos info.symbol
  if resp.Response_Type = TRADE_CONFIRM then
    if info.openCloseFlag = OPEN_ORDER then
      if resp.Side = SIDE_BUY then
        ledger.setPos info.symbol { pos with todayLongPos := pos.todayLongPos + resp.Quantity }
      else
        ledger.setPos info.symbol { pos with todayShortPos := pos.todayShortPos + resp.Quantity }
    else
      ledger.setPos info.symbol pos
  else if resp.Response_Type = ORDER_ERROR ∨ resp.Response_Type = ORS_REJECT ∨
          resp.Response_Type = RMS_REJECT ∨ resp.Response_Type = CANCEL_ORDER_CONFIRM then
    let qty := resp.Quantity
    if info.openCloseFlag = CLOSE_TODAY_FLAG then
      if info.side = SIDE_BUY then
        ledger.setPos info.symbol { pos with todayShortPos := pos.todayShortPos + qty }
      else
        ledger.setPos info.symbol { pos with todayLongPos := pos.todayLongPos + qty }
    else if info.openCloseFlag = CLOSE_YESTD_FLAG then
      if info.side = SIDE_BUY then
        ledger.setPos info.symbol { pos with ONShortPos := pos.ONShortPos + qty }
      else
        ledger.setPos info.symbol { pos with ONLongPos := pos.ONLongPos + qty }
    else
      ledger.setPos info.symbol pos
  else
    ledger.setPos info.symbol pos

/-- `g_order_map`: broker order id → cached order info. -/
abbrev OrderMap := List (String × CachedOrderInfo)

/-- Result of one `OnBrokerOrderCallback` invocation: the cached-order map,
the ledger, and the responses enqueued on the response MWMR (in order). -/
structure CallbackResult where
  order_map : OrderMap
  ledger : Ledger
  responses : List ResponseMsg
deriving DecidableEq

/-- `OnBrokerOrderCallback` (counter_bridge.cpp:444-516): look up the cached
order; drop the event if absent; otherwise build the `ResponseMsg` from the
cached fields and the status mapping, update the ledger, and enqueue.  The
C++ function contains no erase of `g_order_map`, so the map is returned
unchanged on every path.  (The CANCELED quantity `volume - traded_volume`
is `uint32_t` arithmetic in the source; it is modelled on `Int`, which
agrees on every callback with `traded_volume ≤ volume`.) -/
def onBrokerOrderCallback (order_map : OrderMap) (ledger : Ledger)
    (info : Plugin.OrderInfo) : CallbackResult :=
  match assocGet order_map info.order_id with
  | none => ⟨order_map, ledger, []⟩
  | some cached =>
    let base := { zeroResponse with
      OrderID := cached.order_id
      StrategyID := cached.strategy_id
      Side := cached.side
      Symbol := cached.symbol }
    let resp :=
      match info.status with
      | .ACCEPTED | .SUBMITTED => { base with Response_Type := NEW_ORDER_CONFIRM }
      | .PARTIAL_FILLED | .FILLED =>
        { base with Response_Type := TRADE_CONFIRM,
                    Quantity := (info.traded_volume : Int), Price := info.price }
      | .CANCELED =>
        { base with Response_Type := CANCEL_ORDER_CONFIRM,
                    Quantity := (info.volume : Int) - (info.traded_volume : Int) }
      | .REJECTED | .ERROR =>
        { base with Response_Type := ORDER_ERROR, ErrorCode := 1,
                    Quantity := (info.volume : Int) }
      | _ => { base with Response_Type := ORDER_ERROR }
    let resp := { resp with TimeStamp := info.update_time }
    let ledger' := updatePositionBridge ledger resp cached
    ⟨order_map, ledger', [resp]⟩

/-- Exchange byte → exchange name string (counter_bridge.cpp:576-583). -/
def exchangeName (b : Nat) : String :=
  if b = CHINA_SHFE then "SHFE"
  else if b = CHINA_CFFEX then "CFFEX"
  else if b = CHINA_ZCE then "CZCE"
  else if b = CHINA_DCE then "DCE"
  else if b = CHINA_GFEX then "GFEX"
  else "SHFE"

/-- `SetCombOffsetFlag` result → plugin `OffsetFlag`
(counter_bridge.cpp:591-596). -/
def flagToOffset (flag : Int) : Plugin.OffsetFlag :=
  if flag = OPEN_ORDER then .OPEN
  else if flag = CLOSE_TODAY_FLAG then .CLOSE_TODAY
  else if flag = CLOSE_YESTD_FLAG then .CLOSE_YESTERDAY
  else .OPEN

/-- `static_cast<uint32_t>(x)` on a C `int32_t` value. -/
def toU32 (x : Int) : Nat := (x % 4294967296).toNat

/-- Bridge-global mutable state touched by one request:
`g_mapContractPos` and `g_order_map`. -/
structure BridgeState where
  ledger : Ledger
  order_map : OrderMap
deriving DecidableEq

/-- One iteration of `OrderRequestProcessor` (counter_bridge.cpp:538-661)
on a dequeued request.  The broker registry and the plugin call are
external collaborators: `brokerAvailable` stands for
`GetBrokerForSymbol(symbol) != nullptr`, and `brokerOrderId` for the string
`broker->SendOrder(unified_req)` returns (empty string = failure).
Returns the new state and the responses enqueued by this iteration. -/
def processRequest (st : BridgeState) (req : RequestMsg)
    (brokerAvailable : Bool) (brokerOrderId : String) :
    BridgeState × List ResponseMsg :=
  if !brokerAvailable then
    -- No broker: enqueue ORS_REJECT and continue (the zeroed fields of
    -- `resp`, Quantity and Side included, are left at 0).
    let resp := { zeroResponse with
      Response_Type := ORS_REJECT
      OrderID := req.OrderID
      ErrorCode := 1
      StrategyID := req.StrategyID
      Symbol := req.Symbol }
    (st, [resp])
  else
    let (flag, ledger1) := setCombOffsetFlag st.ledger req
    let ureq : Plugin.OrderRequest := {
      symbol := req.Symbol
      exchange := exchangeName req.Exchange_Type
      direction := if req.Transaction_Type = SIDE_BUY then .BUY else .SELL
      offset := flagToOffset flag
      price_type := if req.OrdType = OT_MARKET then .MARKET else .LIMIT
      price := req.Price
      volume := toU32 req.Quantity
      client_order_id := toString req.OrderID }
    if brokerOrderId ≠ "" then
      -- Success: cache the order info keyed by the broker's order id.
      let info : CachedOrderInfo := {
        order_id := req.OrderID
        strategy_id := req.StrategyID
        symbol := req.Symbol
        exchange := ureq.exchange
        side := req.Transaction_Type
        client_order_id := ureq.client_order_id
        openCloseFlag := flag }
      ({ ledger := ledger1, order_map := assocSet st.order_map brokerOrderId info }, [])
    else
      -- SendOrder failed: ORDER_ERROR response + unfreeze via updatePosition.
      let resp := { zeroResponse with
        Response_Type := ORDER_ERROR
        OrderID := req.OrderID
        ErrorCode := 1
        Quantity := req.Quantity
        Side := req.Transaction_Type
        StrategyID := req.StrategyID
        Symbol := req.Symbol }
      -- tmpInfo: only symbol, side and openCloseFlag are set in the C++
      -- (the numeric fields are unread by updatePosition).
      let tmpInfo : CachedOrderInfo := {
        order_id := 0, strategy_id := 0, symbol := req.Symbol, exchange := "",
        side := req.Transaction_Type, client_order_id := "", openCloseFlag := flag }
      ({ ledger := updatePositionBridge ledger1 resp tmpInfo,
         order_map := st.order_map }, [resp])

end Bridge

-- ============================================================
-- Matching simulator (simulator_plugin.cpp, simulator_config.h)
-- ============================================================

namespace Sim

/-- `SimulatorConfig` (the fields the modelled code reads). -/
structure SimConfig where
  initial_balance : ℚ
  commission_rate : ℚ
  margin_rate : ℚ
  accept_delay_ms : Int
  fill_delay_ms : Int
  slippage_ticks : ℚ
  max_position_per_symbol : Int
  max_daily_loss : ℚ
deriving DecidableEq

/-- The simulator's account fields (`m_balance` … `m_daily_pnl`). -/
structure SimAccount where
  balance : ℚ
  available : ℚ
  margin : ℚ
  commission : ℚ
  close_profit : ℚ
  daily_pnl : ℚ
deriving DecidableEq

/-- `InternalPosition` (simulator_plugin.h:29-41).  `volume`,
`today_volume`, `yesterday_volume` are `uint32_t`; `total_volume_traded` is
a `double` in the source and is modelled as `ℚ`. -/
structure InternalPosition where
  symbol : String
  exchange : String
  direction : Plugin.OrderDirection
  volume : Nat
  today_volume : Nat
  yesterday_volume : Nat
  avg_price : ℚ
  total_cost : ℚ
  total_volume_traded : ℚ
  margin : ℚ
  unrealized_pnl : ℚ
deriving DecidableEq

/-- The value-initialized `InternalPosition` a `std::map` subscript creates
on miss (all scalars zero, enum value 0 = BUY, empty strings). -/
def defaultPosition : InternalPosition :=
  { symbol := "", exchange := "", direction := .BUY, volume := 0,
    today_volume := 0, yesterday_volume := 0, avg_price := 0,
    total_cost := 0, total_volume_traded := 0, margin := 0,
    unrealized_pnl := 0 }

/-- `m_positions`: key `symbol_LONG` / `symbol_SHORT`. -/
abbrev PositionMap := List (String × InternalPosition)

/-- Position-table and account state mutated by the fill path. -/
structure SimState where
  positions : PositionMap
  account : SimAccount
deriving DecidableEq

def U32MOD : Nat := 4294967296

/-- `uint32_t` addition. -/
def add32 (a b : Nat) : Nat := (a + b) % U32MOD

/-- `uint32_t` subtraction (two's-complement wrap). -/
def sub32 (a b : Nat) : Nat := (a + (U32MOD - b % U32MOD)) % U32MOD

/-- The `symbol_LONG` / `symbol_SHORT` position key. -/
def posKey (symbol : String) (dir : Plugin.OrderDirection) : String :=
  symbol ++ "_" ++ (if dir = .BUY then "LONG" else "SHORT")

/-- `CalculateMargin`: `price * volume * margin_rate`. -/
def calculateMargin (cfg : SimConfig) (_symbol : String) (price : ℚ)
    (volume : Nat) : ℚ :=
  price * (volume : ℚ) * cfg.margin_rate

/-- `CalculateCommission`: `price * volume * commission_rate`. -/
def calculateCommission (cfg : SimConfig) (_symbol : String) (price : ℚ)
    (volume : Nat) : ℚ :=
  price * (volume : ℚ) * cfg.commission_rate

/-- The opposite direction: a buy closes shorts, a sell closes longs. -/
def closeDirectionOf (d : Plugin.OrderDirection) : Plugin.OrderDirection :=
  if d = .BUY then .SELL else .BUY

/-- `SimulatorPlugin::UpdatePosition` (simulator_plugin.cpp:533-670).
Open branch: accumulate cost over `avg_price * volume`, bump `volume`,
`today_volume`, `total_volume_traded`, set
`avg_price = total_cost / total_volume_traded`, recompute margin at the
trade price.  Close branch: find the opposite-direction entry (warn-return
if absent or flat), split the closed quantity per the offset
(CloseToday from today, CloseYesterday from yesterday, generic Close
today-first), return unchanged if the split is 0, realise P&L into
`close_profit`/`daily_pnl`, decrement the buckets, erase the entry at zero
volume or else recompute margin. -/
def updatePosition (cfg : SimConfig) (st : SimState)
    (trade : Plugin.TradeInfo) : SimState :=
  let qty := trade.volume
  let price := trade.price
  if trade.offset = .OPEN then
    let key := posKey trade.symbol trade.direction
    let pos0 := (assocGet st.positions key).getD defaultPosition
    let pos1 :=
      if pos0.volume = 0 ∧ pos0.total_volume_traded = 0 then
        { pos0 with symbol := trade.symbol, exchange := trade.exchange,
                    direction := trade.direction, yesterday_volume := 0 }
      else pos0
    let oldCost := pos1.avg_price * (pos1.volume : ℚ)
    let total_cost := oldCost + price * (qty : ℚ)
    let volume := add32 pos1.volume qty
    let today_volume := add32 pos1.today_volume qty
    let tvt := pos1.total_volume_traded + (qty : ℚ)
    let pos2 := { pos1 with
      total_cost := total_cost
      volume := volume
      today_volume := today_volume
      total_volume_traded := tvt
      avg_price := total_cost / tvt
      margin := calculateMargin cfg trade.symbol price volume }
    { st with positions := assocSet st.positions key pos2 }
  else
    let close_direction := closeDirectionOf trade.direction
    let key := posKey trade.symbol close_direction
    match assocGet st.positions key with
    | none => st
    | some pos =>
      if pos.volume = 0 then st
      else
        let split :=
          if trade.offset = .CLOSE_TODAY then
            (min qty pos.today_volume, min qty pos.today_volume, 0)
          else if trade.offset = .CLOSE_YESTERDAY then
            (min qty pos.yesterday_volume, 0, min qty pos.yesterday_volume)
          else
            let c := min qty pos.volume
            if pos.today_volume ≥ c then (c, c, 0)
            else (c, pos.today_volume, c - pos.today_volume)
        let closedQty := split.1
        let close_today := split.2.1
        let close_yesterday := split.2.2
        if closedQty = 0 then st
        else
          let close_pnl :=
            if close_direction = .BUY then (price - pos.avg_price) * (closedQty : ℚ)
            else (pos.avg_price - price) * (closedQty : ℚ)
          let acc := { st.account with
            close_profit := st.account.close_profit + close_pnl
            daily_pnl := st.account.daily_pnl + close_pnl }
          let pos' := { pos with
            volume := sub32 pos.volume closedQty
            today_volume := sub32 pos.today_volume close_today
            yesterday_volume := sub32 pos.yesterday_volume close_yesterday }
          if pos'.volume = 0 then
            { positions := assocErase st.positions key, account := acc }
          else
            { positions := assocSet st.positions key
                { pos' with margin := calculateMargin cfg trade.symbol price pos'.volume },
              account := acc }

/-- `SimulatorPlugin::UpdateAccount` (simulator_plugin.cpp:672-690): sum
position margins, then assign `margin`, then
`available = balance - margin - commission` (reading the balance stored at
entry), then `balance = initial_balance + close_profit - commission`. -/
def updateAccount (cfg : SimConfig) (st : SimState) : SimState :=
  let total_margin := st.positions.foldl (fun a p => a + p.2.margin) 0
  let margin := total_margin
  let available := st.account.balance - margin - st.account.commission
  let balance := cfg.initial_balance + st.account.close_profit - st.account.commission
  { st with account := { st.account with
      margin := margin, available := available, balance := balance } }

/-- The tail of `ProcessOrderImmediate`'s fill path:
`UpdatePosition(trade)` then `UpdateAccount()`. -/
def fillStep (cfg : SimConfig) (st : SimState) (trade : Plugin.TradeInfo) : SimState :=
  updateAccount cfg (updatePosition cfg st trade)

/-- The account and position state right after `Login()`
(simulator_plugin.cpp:72-103): balance and available set to
`initial_balance`, every other accumulator zeroed; a fresh plugin holds no
positions. -/
def loginState (cfg : SimConfig) : SimState :=
  { positions := [],
    account := { balance := cfg.initial_balance, available := cfg.initial_balance,
                 margin := 0, commission := 0, close_profit := 0, daily_pnl := 0 } }

/-- A session: login followed by a stream of executed fills. -/
def runSession (cfg : SimConfig) (trades : List Plugin.TradeInfo) : SimState :=
  trades.foldl (fillStep cfg) (loginState cfg)

/-- A sequence of trades pushed through `UpdatePosition` only. -/
def applyTrades (cfg : SimConfig) (st : SimState) (ts : List Plugin.TradeInfo) : SimState :=
  ts.foldl (updatePosition cfg) st

/-- Total quantity of a trade list (the claim's `Σ tᵢ.qty`). -/
def sumQty : List Plugin.TradeInfo → Nat
  | [] => 0
  | t :: ts => t.volume + sumQty ts

/-- Total cost of a trade list (the claim's `Σ tᵢ.price × tᵢ.qty`). -/
def sumCost : List Plugin.TradeInfo → ℚ
  | [] => 0
  | t :: ts => t.price * (t.volume : ℚ) + sumCost ts

/-- `SimulatorPlugin::SetOpenClose` (simulator_plugin.cpp:816-868):
unconditionally rewrite the request's offset from the current position
table.  Buy: if a short position with volume > 0 exists, close it (on SHFE
prefer CloseToday if today > 0, else CloseYesterday if yesterday > 0, else
Close; plain Close off-SHFE), otherwise Open; symmetric for sell over the
long position. -/
def setOpenClose (positions : PositionMap) (req : Plugin.OrderRequest) :
    Plugin.OrderRequest :=
  let long_key := req.symbol ++ "_LONG"
  let short_key := req.symbol ++ "_SHORT"
  let is_shfe := req.exchange = "SHFE"
  if req.direction = .BUY then
    match assocGet positions short_key with
    | some pos =>
      if pos.volume > 0 then
        { req with offset :=
            if is_shfe then
              if pos.today_volume > 0 then .CLOSE_TODAY
              else if pos.yesterday_volume > 0 then .CLOSE_YESTERDAY
              else .CLOSE
            else .CLOSE }
      else { req with offset := .OPEN }
    | none => { req with offset := .OPEN }
  else
    match assocGet positions long_key with
    | some pos =>
      if pos.volume > 0 then
        { req with offset :=
            if is_shfe then
              if pos.today_volume > 0 then .CLOSE_TODAY
              else if pos.yesterday_volume > 0 then .CLOSE_YESTERDAY
              else .CLOSE
            else .CLOSE }
      else { req with offset := .OPEN }
    | none => { req with offset := .OPEN }

/-- `SimulatorPlugin::CheckRisk` (simulator_plugin.cpp:706-801), decision
only (the human-readable reject message is elided).  Open: same-direction
position plus requested volume must not exceed
`static_cast<uint32_t>(max_position_per_symbol)`, and
`margin + commission ≤ available`.  Close: the bucket matching the offset
must hold at least the requested volume.  Always: reject once
`daily_pnl < -max_daily_loss`. -/
def checkRisk (cfg : SimConfig) (st : SimState) (req : Plugin.OrderRequest) : Bool :=
  let positionOk :=
    if req.offset = .OPEN then
      let key := posKey req.symbol req.direction
      let current_volume := ((assocGet st.positions key).map (·.volume)).getD 0
      decide (current_volume + req.volume ≤ (cfg.max_position_per_symbol % 4294967296).toNat)
    else
      let close_direction := closeDirectionOf req.direction
      let key := posKey req.symbol close_direction
      match assocGet st.positions key with
      | none => false
      | some pos =>
        let avail :=
          if req.offset = .CLOSE_TODAY then pos.today_volume
          else if req.offset = .CLOSE_YESTERDAY then pos.yesterday_volume
          else pos.volume
        decide (req.volume ≤ avail)
  if !positionOk then false
  else
    let fundsOk :=
      if req.offset = .OPEN then
        let required_margin := calculateMargin cfg req.symbol req.price req.volume
        let required_commission := calculateCommission cfg req.symbol req.price req.volume
        decide (required_margin + required_commission ≤ st.account.available)
      else true
    if !fundsOk then false
    else decide (-cfg.max_daily_loss ≤ st.account.daily_pnl)

/-- The part of `SimulatorPlugin::SendOrder` (simulator_plugin.cpp:145-258)
that determines what is stored and dispatched for an accepted call: the
caller's request is copied, `SetOpenClose` rewrites its offset from the
position table, and `CheckRisk` runs on the modified request.  The stored
order, the risk decision, each callback and the later fill all read only
this pair. -/
def sendOrderCore (cfg : SimConfig) (st : SimState) (req : Plugin.OrderRequest) :
    Plugin.OrderRequest × Bool :=
  let modified := setOpenClose st.positions req
  (modified, checkRisk cfg st modified)

/-- `InternalOrder` (simulator_plugin.h:17-26); the status message is
elided. -/
structure InternalOrder where
  order_id : String
  client_order_id : String
  request : Plugin.OrderRequest
  status : Plugin.OrderStatus
  traded_volume : Nat
  insert_time : Int
  update_time : Int
deriving DecidableEq

/-- `m_orders`. -/
abbrev OrderTable := List (String × InternalOrder)

/-- `SimulatorPlugin::CancelOrder` (simulator_plugin.cpp:260-297): fail when
not logged in, when the id is unknown, or when the order is already FILLED,
CANCELED or REJECTED; otherwise mark the order CANCELED, stamp
`update_time`, fire the order callback (returned as the list of emitted
callback statuses) and return true. -/
def cancelOrder (loggedIn : Bool) (now : Int) (orders : OrderTable)
    (order_id : String) : Bool × OrderTable × List Plugin.OrderStatus :=
  if !loggedIn then (false, orders, [])
  else
    match assocGet orders order_id with
    | none => (false, orders, [])
    | some ord =>
      if ord.status = .FILLED ∨ ord.status = .CANCELED ∨ ord.status = .REJECTED then
        (false, orders, [])
      else
        let ord' := { ord with status := .CANCELED, update_time := now }
        (true, assocSet orders order_id ord', [Plugin.OrderStatus.CANCELED])

/-- Events emitted by the simulator's asynchronous order lifecycle. -/
inductive LifecycleEvent
  | orderCb (status : Plugin.OrderStatus)
  | tradeCb (trade : Plugin.TradeInfo)
deriving DecidableEq

/-- Fill price with slippage (simulator_plugin.cpp:460-470). -/
def fillPrice (cfg : SimConfig) (req : Plugin.OrderRequest) : ℚ :=
  if req.price_type = .MARKET ∨ cfg.slippage_ticks > 0 then
    if req.direction = .BUY then req.price + cfg.slippage_ticks
    else req.price - cfg.slippage_ticks
  else req.price

/-- `SimulatorPlugin::ProcessOrderImmediate` (simulator_plugin.cpp:418-526)
as an event trace.  The task re-reads the order's status from `m_orders` at
each wake-up; `statusAtAccept` / `statusAtFill` are the statuses it
observes after the accept and fill delays (`none` = order removed).  If a
wake-up observes CANCELED the task returns without emitting anything
further; otherwise it emits the ACCEPTED callback, then the FILLED
callback, the trade record and the trade callback. -/
def processOrderImmediate (cfg : SimConfig)
    (statusAtAccept : Option Plugin.OrderStatus)
    (statusAtFill : Option Plugin.OrderStatus)
    (order_id : String) (trade_id : String) (now : Int)
    (req : Plugin.OrderRequest) : List LifecycleEvent :=
  match statusAtAccept with
  | none => []
  | some s1 =>
    if s1 = .CANCELED then []
    else
      LifecycleEvent.orderCb .ACCEPTED ::
      (match statusAtFill with
       | none => []
       | some s2 =>
         if s2 = .CANCELED then []
         else
           let trade : Plugin.TradeInfo := {
             trade_id := trade_id
             order_id := order_id
             symbol := req.symbol
             exchange := req.exchange
             direction := req.direction
             offset := req.offset
             price := fillPrice cfg req
             volume := req.volume
             trade_time := now }
           [LifecycleEvent.orderCb .FILLED, LifecycleEvent.tradeCb trade])

/-- True iff the event list contains a fill or a trade. -/
def emitsFill (evs : List LifecycleEvent) : Bool :=
  evs.any fun e =>
    match e with
    | .orderCb s => s = .FILLED ∨ s = .PARTIAL_FILLED
    | .tradeCb _ => true

/-- The order statuses the simulator itself ever stores in `m_orders`:
SUBMITTING and REJECTED at `SendOrder`, ACCEPTED and FILLED in
`ProcessOrderImmediate`, CANCELED in `CancelOrder` (PARTIAL_FILLED is
reachable only via the claim's hypothetical partial-fill path and is
included because the claim names it). -/
def storableStatus (s : Plugin.OrderStatus) : Prop :=
  s = .SUBMITTING ∨ s = .ACCEPTED ∨ s = .PARTIAL_FILLED ∨ s = .FILLED ∨
  s = .CANCELED ∨ s = .REJECTED

end Sim

-- ============================================================
-- Concrete inputs used by counterexamples and witnesses
-- ============================================================

/-- Concrete cached order used by the C2 counterexample. -/
def c2Cached : Bridge.CachedOrderInfo :=
  { order_id := 1, strategy_id := 7, symbol := "ag2506", exchange := "SHFE",
    side := 66, client_order_id := "1", openCloseFlag := Bridge.OPEN_ORDER }

/-- Concrete terminal (Filled) broker callback used by the C2 counterexample. -/
def c2Info : Plugin.OrderInfo :=
  { order_id := "SIM_1_1", client_order_id := "1", symbol := "ag2506",
    exchange := "SHFE", direction := .BUY, offset := .OPEN,
    price_type := .LIMIT, price := 7800, volume := 3, traded_volume := 3,
    status := .FILLED, insert_time := 0, update_time := 0 }

/-- Concrete request (Quantity 5, side 'B') used by the C3 counterexample. -/
def c3Req : Bridge.RequestMsg :=
  { Symbol := "ag2506", OrdType := 1, OrderID := 11, Quantity := 5,
    Price := 7800, Transaction_Type := 66, Exchange_Type := 57, StrategyID := 7 }

/-- Concrete ledger used by the C5 witness. -/
def c5Ledger : Bridge.Ledger := [("ag2506", ⟨0, 0, 0, 5⟩)]

/-- Concrete SHFE buy request (quantity 3) used by the C5 witness. -/
def c5Req : Bridge.RequestMsg :=
  { Symbol := "ag2506", OrdType := 1, OrderID := 2, Quantity := 3,
    Price := 7810, Transaction_Type := 66, Exchange_Type := 57, StrategyID := 7 }

/-- Simulator configuration shared by the simulator-claim runs. -/
def simCfg : Sim.SimConfig :=
  { initial_balance := 10000, commission_rate := 3/10000, margin_rate := 1/10,
    accept_delay_ms := 0, fill_delay_ms := 0, slippage_ticks := 1,
    max_position_per_symbol := 1000, max_daily_loss := 100000 }

/-- Opening fill: buy 2 @ 100 (used by C4 and C7 runs). -/
def tOpen2At100 : Plugin.TradeInfo :=
  { trade_id := "TRD_1", order_id := "SIM_1", symbol := "ag2506", exchange := "SHFE",
    direction := .BUY, offset := .OPEN, price := 100, volume := 2, trade_time := 1 }

/-- Closing fill: sell 2 @ 110 with generic Close (used by the C4 run). -/
def tClose2At110 : Plugin.TradeInfo :=
  { trade_id := "TRD_2", order_id := "SIM_2", symbol := "ag2506", exchange := "SHFE",
    direction := .SELL, offset := .CLOSE, price := 110, volume := 2, trade_time := 2 }

/-- Closing fill: sell 1 @ 110 with generic Close (used by the C7 run). -/
def tClose1At110 : Plugin.TradeInfo :=
  { trade_id := "TRD_3", order_id := "SIM_3", symbol := "ag2506", exchange := "SHFE",
    direction := .SELL, offset := .CLOSE, price := 110, volume := 1, trade_time := 3 }

/-- Opening fill: buy 1 @ 120 (used by the C7 run). -/
def tOpen1At120 : Plugin.TradeInfo :=
  { trade_id := "TRD_4", order_id := "SIM_4", symbol := "ag2506", exchange := "SHFE",
    direction := .BUY, offset := .OPEN, price := 120, volume := 1, trade_time := 4 }

/-- An empty simulator state (no positions, zeroed account). -/
def emptySimState : Sim.SimState :=
  { positions := [],
    account := { balance := 0, available := 0, margin := 0, commission := 0,
                 close_profit := 0, daily_pnl := 0 } }

/-- Long position 3 lots (2 today + 1 yesterday) at average 100, used by
the C6 witness. -/
def c6Pos : Sim.InternalPosition :=
  { symbol := "ag2506", exchange := "SHFE", direction := .BUY, volume := 3,
    today_volume := 2, yesterday_volume := 1, avg_price := 100,
    total_cost := 300, total_volume_traded := 3, margin := 30,
    unrealized_pnl := 0 }

/-- State holding `c6Pos`, used by the C6 witness. -/
def c6St : Sim.SimState :=
  { positions := [("ag2506_LONG", c6Pos)], account := emptySimState.account }

/-- Sell 2 @ 110, generic Close — the C6 witness trade. -/
def c6Trade : Plugin.TradeInfo :=
  { trade_id := "TRD_9", order_id := "SIM_9", symbol := "ag2506", exchange := "SHFE",
    direction := .SELL, offset := .CLOSE, price := 110, volume := 2, trade_time := 9 }

/-- Long position with all 5 lots in the yesterday bucket and a stale
margin of 999, used by the C6 counterexample. -/
def c6BadPos : Sim.InternalPosition :=
  { symbol := "ag2506", exchange := "SHFE", direction := .BUY, volume := 5,
    today_volume := 0, yesterday_volume := 5, avg_price := 100,
    total_cost := 500, total_volume_traded := 5, margin := 999,
    unrealized_pnl := 0 }

/-- State holding `c6BadPos`, used by the C6 counterexample. -/
def c6BadSt : Sim.SimState :=
  { positions := [("ag2506_LONG", c6BadPos)], account := emptySimState.account }

/-- Sell 3 @ 200 with CloseToday against an empty today bucket — the C6
counterexample trade. -/
def c6BadTrade : Plugin.TradeInfo :=
  { trade_id := "TRD_8", order_id := "SIM_8", symbol := "ag2506", exchange := "SHFE",
    direction := .SELL, offset := .CLOSE_TODAY, price := 200, volume := 3, trade_time := 8 }

/-- Pending SUBMITTING order request, used by the C8 witness. -/
def c8Req : Plugin.OrderRequest :=
  { symbol := "ag2506", exchange := "SHFE", direction := .BUY, offset := .OPEN,
    price_type := .LIMIT, price := 7800, volume := 3, client_order_id := "7" }

/-- Pending SUBMITTING order, used by the C8 witness. -/
def c8Order : Sim.InternalOrder :=
  { order_id := "SIM_7_1", client_order_id := "7", request := c8Req,
    status := .SUBMITTING, traded_volume := 0, insert_time := 0, update_time := 0 }

/-- Order table holding `c8Order`, used by the C8 witness. -/
def c8Orders : Sim.OrderTable := [("SIM_7_1", c8Order)]

/-- Short position of 2 lots, used by the C9 witness. -/
def c9ShortPos : Sim.InternalPosition :=
  { symbol := "ag2506", exchange := "SHFE", direction := .SELL, volume := 2,
    today_volume := 2, yesterday_volume := 0, avg_price := 100,
    total_cost := 200, total_volume_traded := 2, margin := 20,
    unrealized_pnl := 0 }

/-- Position table holding `c9ShortPos`, used by the C9 witness. -/
def c9Positions : Sim.PositionMap := [("ag2506_SHORT", c9ShortPos)]

/-- Explicit-Open buy request against the short position, used by the C9
witness. -/
def c9Req : Plugin.OrderRequest :=
  { symbol := "ag2506", exchange := "SHFE", direction := .BUY, offset := .OPEN,
    price_type := .LIMIT, price := 7800, volume := 1, client_order_id := "9" }

-- The arithmetic of the embedded code is elementary field arithmetic on
-- `ℚ`; restore definitional transparency of the rational operations so
-- concrete runs evaluate inside proofs.
attribute [local semireducible] Rat.add Rat.sub Rat.mul Rat.inv

-- ============================================================
-- Helper lemmas
-- ============================================================

theorem assocGet_assocSet_self {β : Type} (l : List (String × β)) (k : String) (v : β) :
    assocGet (assocSet l k v) k = some v := by
  induction l with
  | nil => simp [assocGet, assocSet]
  | cons p rest ih =>
    obtain ⟨k', v'⟩ := p
    by_cases hk : k' = k <;> simp [assocGet, assocSet, hk, ih]

theorem assocGet_assocErase_self {β : Type} (l : List (String × β)) (k : String) :
    assocGet (assocErase l k) k = none := by
  induction l with
  | nil => simp [assocGet, assocErase]
  | cons p rest ih =>
    obtain ⟨k', v'⟩ := p
    by_cases hk : k' = k
    · subst hk
      simpa [assocErase, List.filter] using ih
    · have hb : (k' != k) = true := bne_iff_ne.mpr hk
      simpa [assocErase, List.filter, hb, assocGet, hk] using ih

theorem add32_eq_of_lt {a b : Nat} (h : a + b < Sim.U32MOD) : Sim.add32 a b = a + b :=
  Nat.mod_eq_of_lt h

theorem sub32_eq_of_le {a b : Nat} (hb : b ≤ a) (ha : a < Sim.U32MOD) :
    Sim.sub32 a b = a - b := by
  have hbm : b % Sim.U32MOD = b := Nat.mod_eq_of_lt (lt_of_le_of_lt hb ha)
  unfold Sim.sub32
  rw [hbm]
  have h1 : a + (Sim.U32MOD - b) = (a - b) + Sim.U32MOD := by
    have := Nat.le_of_lt ha
    omega
  rw [h1, Nat.add_mod_right, Nat.mod_eq_of_lt (by omega)]

theorem commission_updatePosition (cfg : Sim.SimConfig) (st : Sim.SimState)
    (t : Plugin.TradeInfo) :
    (Sim.updatePosition cfg st t).account.commission = st.account.commission := by
  unfold Sim.updatePosition
  dsimp only
  repeat' split
  all_goals rfl

theorem commission_updateAccount (cfg : Sim.SimConfig) (st : Sim.SimState) :
    (Sim.updateAccount cfg st).account.commission = st.account.commission := rfl

theorem balance_updateAccount (cfg : Sim.SimConfig) (st : Sim.SimState) :
    (Sim.updateAccount cfg st).account.balance =
      cfg.initial_balance + st.account.close_profit - st.account.commission := rfl

theorem closeProfit_updateAccount (cfg : Sim.SimConfig) (st : Sim.SimState) :
    (Sim.updateAccount cfg st).account.close_profit = st.account.close_profit := rfl

theorem session_fold_invariant (cfg : Sim.SimConfig) :
    ∀ (ts : List Plugin.TradeInfo) (st : Sim.SimState),
      st.account.commission = 0 →
      st.account.balance = cfg.initial_balance + st.account.close_profit →
      ((ts.foldl (Sim.fillStep cfg) st).account.commission = 0 ∧
       (ts.foldl (Sim.fillStep cfg) st).account.balance =
         cfg.initial_balance + (ts.foldl (Sim.fillStep cfg) st).account.close_profit) := by
  intro ts
  induction ts with
  | nil => intro st h1 h2; exact ⟨h1, h2⟩
  | cons t ts ih =>
    intro st h1 h2
    simp only [List.foldl_cons]
    have hc : (Sim.updatePosition cfg st t).account.commission = 0 := by
      rw [commission_updatePosition]; exact h1
    apply ih
    · show (Sim.updateAccount cfg (Sim.updatePosition cfg st t)).account.commission = 0
      rw [commission_updateAccount]; exact hc
    · show (Sim.updateAccount cfg (Sim.updatePosition cfg st t)).account.balance =
        cfg.initial_balance +
          (Sim.updateAccount cfg (Sim.updatePosition cfg st t)).account.close_profit
      rw [balance_updateAccount, closeProfit_updateAccount, hc, sub_zero]

-- ============================================================
-- Claim C1
-- ============================================================

/-- Claim C1, counterexample: in the spec scenario (e) — capacity 4, 10
enqueues with sequence numbers 1..10, consumer tail starting at 1 — the
consumer does NOT observe the records with sequence numbers 7, 8, 9, 10:
`dequeuePtr` advances the local cursor to `slot.seqNo + 1`, so the first
dequeue under `tail = 1` lands on slot `1 & 3`, whose last writer was
sequence number 9, and the cursor jumps to 10. -/
theorem c1_wrap_counterexample :
    (MWMR.drainAll 20 MWMR.wrapRun).1 ≠ [7, 8, 9, 10] := by decide

/-- Claim C1, amended: in the same scenario the consumer observes exactly
the records with sequence numbers 9 and 10, in increasing order (the cursor
jump `tail := seqNo + 1` skips the still-present records 7 and 8), and
`isEmpty` returns true both on the freshly created queue (before the first
enqueue) and after the last of those dequeues. -/
theorem c1_wrap_amended :
    (MWMR.drainAll 20 MWMR.wrapRun).1 = [9, 10] ∧
    MWMR.isEmpty (MWMR.create 4) = true ∧
    MWMR.isEmpty (MWMR.drainAll 20 MWMR.wrapRun).2 = true := by decide

-- ============================================================
-- Claim C2
-- ============================================================

/-- Claim C2, counterexample: a broker callback with terminal status
`FILLED` for broker order id "SIM_1_1" enqueues its response, yet the
cached-order map still contains the entry keyed by that broker order id
afterwards — `OnBrokerOrderCallback` contains no erase of `g_order_map`. -/
theorem c2_cache_retention_counterexample :
    (Bridge.onBrokerOrderCallback [("SIM_1_1", c2Cached)] [] c2Info).responses ≠ [] ∧
    assocGet (Bridge.onBrokerOrderCallback [("SIM_1_1", c2Cached)] [] c2Info).order_map
        "SIM_1_1" = some c2Cached := by
  decide

/-- Claim C2, amended: the bridge callback never removes cached-order
entries — for every status, terminal or not, the cached-order map after the
callback is exactly the map before it (entries are retained for the life of
the process). -/
theorem c2_cache_retention_amended
    (order_map : Bridge.OrderMap) (ledger : Bridge.Ledger)
    (info : Plugin.OrderInfo) :
    (Bridge.onBrokerOrderCallback order_map ledger info).order_map = order_map := by
  cases h : assocGet order_map info.order_id <;>
    simp [Bridge.onBrokerOrderCallback, h]

-- ============================================================
-- Claim C3
-- ============================================================

/-- Claim C3, counterexample: when no broker is available the bridge does
enqueue exactly one ORS_REJECT with ErrorCode 1, but the response's
Quantity is 0 (not the request's Quantity 5) and its Side is 0 (not the
request's side byte 'B'): the reject is built from a zeroed `ResponseMsg`
and those two fields are never assigned. -/
theorem c3_ors_reject_counterexample :
    ((Bridge.processRequest ⟨[], []⟩ c3Req false "").2.length = 1 ∧
     ((Bridge.processRequest ⟨[], []⟩ c3Req false "").2.headD
         Bridge.zeroResponse).Response_Type = Bridge.ORS_REJECT) ∧
    ¬ (((Bridge.processRequest ⟨[], []⟩ c3Req false "").2.headD
          Bridge.zeroResponse).Quantity = c3Req.Quantity ∧
       ((Bridge.processRequest ⟨[], []⟩ c3Req false "").2.headD
          Bridge.zeroResponse).Side = c3Req.Transaction_Type) := by
  decide

/-- Claim C3, amended: for every request dequeued while no broker is
available, the bridge enqueues exactly one ORS_REJECT response carrying
ErrorCode = 1, with Symbol, OrderID and StrategyID copied from the request,
and Quantity and Side left at their zeroed values; no cached-order entry is
created and the position ledger is unchanged by that request. -/
theorem c3_ors_reject_amended
    (st : Bridge.BridgeState) (req : Bridge.RequestMsg) (bid : String) :
    Bridge.processRequest st req false bid =
      (st, [{ Bridge.zeroResponse with
                Response_Type := Bridge.ORS_REJECT
                OrderID := req.OrderID
                ErrorCode := 1
                StrategyID := req.StrategyID
                Symbol := req.Symbol }]) := by
  rfl

-- ============================================================
-- Claim C4
-- ============================================================

/-- Claim C4, counterexample: a reachable session — login with initial
balance 10000, open 2 @ 100, then close 2 @ 110 (realising 20 of close
profit) — ends with an `update_account` call after which
balance = 10020, margin = 0, commission = 0, but available = 10000:
`UpdateAccount` computes `available` from the balance stored at entry,
before it overwrites `balance`, so `available = balance − margin −
commission` fails on the returned state. -/
theorem c4_update_account_counterexample :
    (Sim.runSession simCfg [tOpen2At100, tClose2At110]).account =
      { balance := 10020, available := 10000, margin := 0,
        commission := 0, close_profit := 20, daily_pnl := 20 } ∧
    ¬ ((Sim.runSession simCfg [tOpen2At100, tClose2At110]).account.available =
        (Sim.runSession simCfg [tOpen2At100, tClose2At110]).account.balance -
        (Sim.runSession simCfg [tOpen2At100, tClose2At110]).account.margin -
        (Sim.runSession simCfg [tOpen2At100, tClose2At110]).account.commission) := by
  decide

/-- Claim C4, amended: after every `update_account` call,
`balance = initial_balance + close_profit − commission` holds on the
returned state, and `available = (balance at entry) − margin − commission`
— the available equation reads the balance from before the call, because
the code assigns `available` before recomputing `balance`. -/
theorem c4_update_account_amended (cfg : Sim.SimConfig) (st : Sim.SimState) :
    ((Sim.updateAccount cfg st).account.balance =
       cfg.initial_balance + (Sim.updateAccount cfg st).account.close_profit -
         (Sim.updateAccount cfg st).account.commission) ∧
    ((Sim.updateAccount cfg st).account.available =
       st.account.balance - (Sim.updateAccount cfg st).account.margin -
         (Sim.updateAccount cfg st).account.commission) :=
  ⟨rfl, rfl⟩

-- ============================================================
-- Claim C5
-- ============================================================

/-- Claim C5: `SetCombOffsetFlag` on the ledger entry for the request's
symbol.  For side Buy: if quantity ≤ todayShort the flag is CloseToday when
the exchange byte is SHFE (the generic close-yesterday flag otherwise) and
todayShort is debited by the quantity; else if quantity ≤ ONShort the flag
is CloseYesterday and ONShort is debited; otherwise the flag is Open and no
bucket changes.  Symmetrically for side Sell over todayLong/ONLong.  The
flag and the mutated ledger are produced by one atomic transition (the C++
computes both under `g_posLock`). -/
theorem c5_set_comb_offset_flag (ledger : Bridge.Ledger) (req : Bridge.RequestMsg) :
    (req.Transaction_Type = Bridge.SIDE_BUY →
      (req.Quantity ≤ (ledger.getPos req.Symbol).todayShortPos →
        Bridge.setCombOffsetFlag ledger req =
          ((if req.Exchange_Type = Bridge.CHINA_SHFE then Bridge.CLOSE_TODAY_FLAG
            else Bridge.CLOSE_YESTD_FLAG),
           ledger.setPos req.Symbol
             { ledger.getPos req.Symbol with
                 todayShortPos := (ledger.getPos req.Symbol).todayShortPos - req.Quantity })) ∧
      (¬ req.Quantity ≤ (ledger.getPos req.Symbol).todayShortPos →
        req.Quantity ≤ (ledger.getPos req.Symbol).ONShortPos →
        Bridge.setCombOffsetFlag ledger req =
          (Bridge.CLOSE_YESTD_FLAG,
           ledger.setPos req.Symbol
             { ledger.getPos req.Symbol with
                 ONShortPos := (ledger.getPos req.Symbol).ONShortPos - req.Quantity })) ∧
      (¬ req.Quantity ≤ (ledger.getPos req.Symbol).todayShortPos →
        ¬ req.Quantity ≤ (ledger.getPos req.Symbol).ONShortPos →
        Bridge.setCombOffsetFlag ledger req =
          (Bridge.OPEN_ORDER, ledger.setPos req.Symbol (ledger.getPos req.Symbol)))) ∧
    (req.Transaction_Type = Bridge.SIDE_SELL →
      (req.Quantity ≤ (ledger.getPos req.Symbol).todayLongPos →
        Bridge.setCombOffsetFlag ledger req =
          ((if req.Exchange_Type = Bridge.CHINA_SHFE then Bridge.CLOSE_TODAY_FLAG
            else Bridge.CLOSE_YESTD_FLAG),
           ledger.setPos req.Symbol
             { ledger.getPos req.Symbol with
                 todayLongPos := (ledger.getPos req.Symbol).todayLongPos - req.Quantity })) ∧
      (¬ req.Quantity ≤ (ledger.getPos req.Symbol).todayLongPos →
        req.Quantity ≤ (ledger.getPos req.Symbol).ONLongPos →
        Bridge.setCombOffsetFlag ledger req =
          (Bridge.CLOSE_YESTD_FLAG,
           ledger.setPos req.Symbol
             { ledger.getPos req.Symbol with
                 ONLongPos := (ledger.getPos req.Symbol).ONLongPos - req.Quantity })) ∧
      (¬ req.Quantity ≤ (ledger.getPos req.Symbol).todayLongPos →
        ¬ req.Quantity ≤ (ledger.getPos req.Symbol).ONLongPos →
        Bridge.setCombOffsetFlag ledger req =
          (Bridge.OPEN_ORDER, ledger.setPos req.Symbol (ledger.getPos req.Symbol)))) := by
  constructor
  · intro hb
    refine ⟨fun h1 => ?_, fun h1 h2 => ?_, fun h1 h2 => ?_⟩ <;>
      simp [Bridge.setCombOffsetFlag, hb, h1, *]
  · intro hs
    have hb : ¬ req.Transaction_Type = Bridge.SIDE_BUY := by
      rw [hs]; decide
    refine ⟨fun h1 => ?_, fun h1 h2 => ?_, fun h1 h2 => ?_⟩ <;>
      simp [Bridge.setCombOffsetFlag, Bridge.SIDE_BUY, Bridge.SIDE_SELL, hb, h1, *]

/-- Witness for C5: on a SHFE buy of 3 against todayShort = 5, the flag is
CloseToday and todayShort becomes 2. -/
theorem c5_set_comb_offset_flag_witness :
    c5Req.Transaction_Type = Bridge.SIDE_BUY ∧
    c5Req.Quantity ≤ (Bridge.Ledger.getPos c5Ledger c5Req.Symbol).todayShortPos ∧
    Bridge.setCombOffsetFlag c5Ledger c5Req =
      (Bridge.CLOSE_TODAY_FLAG, [("ag2506", ⟨0, 0, 0, 2⟩)]) :=
  ⟨by decide, by decide,
    (((c5_set_comb_offset_flag c5Ledger c5Req).1 (by decide)).1 (by decide)).trans
      (by decide)⟩

-- ============================================================
-- Claim C10
-- ============================================================

/-- Claim C10: after `Login`, no operation of the modelled session
increases the commission accumulator — fills add no commission and
`UpdateAccount` never writes it — so `commission = 0` holds at every
observable moment (after any stream of fills), `balance` always equals
`initial_balance + close_profit`, and the configured `commission_rate` has
no influence on the session state (it is read only by `CheckRisk`'s
pre-trade funds check). -/
theorem c10_commission_stays_zero (cfg : Sim.SimConfig)
    (trades : List Plugin.TradeInfo) :
    (Sim.runSession cfg trades).account.commission = 0 ∧
    (Sim.runSession cfg trades).account.balance =
      cfg.initial_balance + (Sim.runSession cfg trades).account.close_profit ∧
    (∀ r : ℚ, Sim.runSession { cfg with commission_rate := r } trades =
      Sim.runSession cfg trades) := by
  have h := session_fold_invariant cfg trades (Sim.loginState cfg) rfl
    (by simp [Sim.loginState])
  exact ⟨h.1, h.2, fun r => rfl⟩


-- ============================================================
-- Claim C8
-- ============================================================

/-- Claim C8: the simulator's cancel (for a logged-in session and an
existing order whose status is one the simulator stores) marks the order
CANCELED, stamps the time, fires a Canceled order callback and returns true
if and only if the order's current state is SUBMITTING, ACCEPTED or
PARTIAL_FILLED; and the asynchronous lifecycle task, observing the cancel
at its next wake-up (after the accept delay or after the fill delay),
exits without emitting any fill or trade for that order. -/
theorem c8_cancel_order (orders : Sim.OrderTable) (oid : String)
    (ord : Sim.InternalOrder) (now : Int)
    (hget : assocGet orders oid = some ord)
    (hreach : Sim.storableStatus ord.status) :
    (((Sim.cancelOrder true now orders oid).1 = true ∧
      assocGet (Sim.cancelOrder true now orders oid).2.1 oid =
        some { ord with status := .CANCELED, update_time := now } ∧
      (Sim.cancelOrder true now orders oid).2.2 = [.CANCELED]) ↔
      (ord.status = .SUBMITTING ∨ ord.status = .ACCEPTED ∨
       ord.status = .PARTIAL_FILLED)) ∧
    (∀ (cfg : Sim.SimConfig) (s2 : Option Plugin.OrderStatus)
       (oid2 tid : String) (tm : Int) (req : Plugin.OrderRequest),
      Sim.processOrderImmediate cfg (some .CANCELED) s2 oid2 tid tm req = []) ∧
    (∀ (cfg : Sim.SimConfig) (s1 : Plugin.OrderStatus)
       (oid2 tid : String) (tm : Int) (req : Plugin.OrderRequest),
      Sim.emitsFill
        (Sim.processOrderImmediate cfg (some s1) (some .CANCELED) oid2 tid tm req)
        = false) := by
  refine ⟨?_, ?_, ?_⟩
  · rcases hreach with h | h | h | h | h | h <;>
      simp [Sim.cancelOrder, hget, h, assocGet_assocSet_self]
  · intro cfg s2 oid2 tid tm req
    simp [Sim.processOrderImmediate]
  · intro cfg s1 oid2 tid tm req
    by_cases h1 : s1 = Plugin.OrderStatus.CANCELED <;>
      simp [Sim.processOrderImmediate, Sim.emitsFill, h1]

/-- Witness for C8: cancelling the pending SUBMITTING order "SIM_7_1"
succeeds, marks it CANCELED with the new timestamp, and fires the Canceled
callback. -/
theorem c8_cancel_order_witness :
    assocGet c8Orders "SIM_7_1" = some c8Order ∧
    Sim.storableStatus c8Order.status ∧
    ((Sim.cancelOrder true 5 c8Orders "SIM_7_1").1 = true ∧
     assocGet (Sim.cancelOrder true 5 c8Orders "SIM_7_1").2.1 "SIM_7_1" =
       some { c8Order with status := .CANCELED, update_time := 5 } ∧
     (Sim.cancelOrder true 5 c8Orders "SIM_7_1").2.2 = [.CANCELED]) :=
  ⟨by decide, Or.inl (by decide),
    (c8_cancel_order c8Orders "SIM_7_1" c8Order 5 (by decide)
        (Or.inl (by decide))).1.mpr (Or.inl (by decide))⟩

-- ============================================================
-- Claim C9
-- ============================================================

/-- Claim C9: the offset actually used by the simulator's send path is
recomputed by `SetOpenClose` purely from the position table, the request's
direction and its exchange; the caller's offset field has no influence —
`sendOrderCore` (the modified request plus its risk decision, which the
stored order and the later fill read) is identical for two requests
differing only in offset — and an explicit Open with an existing
opposite-direction position (volume > 0) is rewritten to a close flag, so
locked hedging cannot be initiated through `send_order`. -/
theorem c9_offset_has_no_influence (cfg : Sim.SimConfig) (st : Sim.SimState)
    (req : Plugin.OrderRequest) (o : Plugin.OffsetFlag) :
    (Sim.sendOrderCore cfg st { req with offset := o } =
      Sim.sendOrderCore cfg st req) ∧
    (req.direction = .BUY →
      ∀ pos, assocGet st.positions (req.symbol ++ "_SHORT") = some pos →
        0 < pos.volume → (Sim.setOpenClose st.positions req).offset ≠ .OPEN) ∧
    (req.direction = .SELL →
      ∀ pos, assocGet st.positions (req.symbol ++ "_LONG") = some pos →
        0 < pos.volume → (Sim.setOpenClose st.positions req).offset ≠ .OPEN) := by
  refine ⟨rfl, ?_, ?_⟩
  · intro hdir pos hpos hvol
    simp [Sim.setOpenClose, hdir, hpos, hvol]
    repeat' split
    all_goals simp
  · intro hdir pos hpos hvol
    simp [Sim.setOpenClose, hdir, hpos, hvol]
    repeat' split
    all_goals simp

/-- Witness for C9: an explicit Open buy against a live 2-lot short is
rewritten to a close flag. -/
theorem c9_offset_has_no_influence_witness :
    c9Req.direction = .BUY ∧
    assocGet c9Positions (c9Req.symbol ++ "_SHORT") = some c9ShortPos ∧
    0 < c9ShortPos.volume ∧
    (Sim.setOpenClose c9Positions c9Req).offset ≠ .OPEN :=
  ⟨by decide, by decide, by decide,
    (c9_offset_has_no_influence simCfg
        { positions := c9Positions, account := emptySimState.account } c9Req
        .OPEN).2.1 (by decide) c9ShortPos (by decide) (by decide)⟩


-- ============================================================
-- C6 development
-- ============================================================

theorem c6_close_core (cfg : Sim.SimConfig) (st : Sim.SimState)
    (trade : Plugin.TradeInfo) (pos : Sim.InternalPosition)
    (cq ct cy : Nat) (pnl : ℚ)
    (hoff : trade.offset ≠ .OPEN)
    (hpos : assocGet st.positions
      (Sim.posKey trade.symbol (Sim.closeDirectionOf trade.direction)) = some pos)
    (hvol : pos.volume ≠ 0)
    (hlt : pos.volume < Sim.U32MOD)
    (htlt : pos.today_volume < Sim.U32MOD)
    (hylt : pos.yesterday_volume < Sim.U32MOD)
    (hcqle : cq ≤ pos.volume)
    (hctle : ct ≤ pos.today_volume)
    (hcyle : cy ≤ pos.yesterday_volume)
    (hsplit :
      (if trade.offset = Plugin.OffsetFlag.CLOSE_TODAY then
        (min trade.volume pos.today_volume, min trade.volume pos.today_volume, 0)
      else if trade.offset = Plugin.OffsetFlag.CLOSE_YESTERDAY then
        (min trade.volume pos.yesterday_volume, 0, min trade.volume pos.yesterday_volume)
      else if pos.today_volume ≥ min trade.volume pos.volume then
        (min trade.volume pos.volume, min trade.volume pos.volume, 0)
      else
        (min trade.volume pos.volume, pos.today_volume,
          min trade.volume pos.volume - pos.today_volume)) = (cq, ct, cy))
    (hpnl : pnl =
      if Sim.closeDirectionOf trade.direction = Plugin.OrderDirection.BUY
      then (trade.price - pos.avg_price) * (cq : ℚ)
      else (pos.avg_price - trade.price) * (cq : ℚ))
    (hcqpos : 0 < cq) :
    (Sim.updatePosition cfg st trade).account.close_profit =
      st.account.close_profit + pnl ∧
    (Sim.updatePosition cfg st trade).account.daily_pnl =
      st.account.daily_pnl + pnl ∧
    (pos.volume = cq →
      assocGet (Sim.updatePosition cfg st trade).positions
        (Sim.posKey trade.symbol (Sim.closeDirectionOf trade.direction)) = none) ∧
    (pos.volume ≠ cq →
      assocGet (Sim.updatePosition cfg st trade).positions
        (Sim.posKey trade.symbol (Sim.closeDirectionOf trade.direction)) =
        some { pos with
          volume := pos.volume - cq
          today_volume := pos.today_volume - ct
          yesterday_volume := pos.yesterday_volume - cy
          margin := Sim.calculateMargin cfg trade.symbol trade.price (pos.volume - cq) }) := by
  have hred : Sim.updatePosition cfg st trade =
      (if pos.volume - cq = 0 then
        { positions := assocErase st.positions
            (Sim.posKey trade.symbol (Sim.closeDirectionOf trade.direction)),
          account := { st.account with
            close_profit := st.account.close_profit + pnl
            daily_pnl := st.account.daily_pnl + pnl } }
       else
        { positions := assocSet st.positions
            (Sim.posKey trade.symbol (Sim.closeDirectionOf trade.direction))
            { pos with
              volume := pos.volume - cq
              today_volume := pos.today_volume - ct
              yesterday_volume := pos.yesterday_volume - cy
              margin := Sim.calculateMargin cfg trade.symbol trade.price (pos.volume - cq) },
          account := { st.account with
            close_profit := st.account.close_profit + pnl
            daily_pnl := st.account.daily_pnl + pnl } }) := by
    unfold Sim.updatePosition
    dsimp only
    rw [if_neg hoff, hpos]
    dsimp only
    rw [if_neg hvol, hsplit]
    dsimp only
    rw [if_neg (Nat.pos_iff_ne_zero.mp hcqpos), ← hpnl]
    rw [sub32_eq_of_le hcqle hlt, sub32_eq_of_le hctle htlt, sub32_eq_of_le hcyle hylt]
  refine ⟨?_, ?_, ?_, ?_⟩
  · rw [hred]; split <;> rfl
  · rw [hred]; split <;> rfl
  · intro hEq
    rw [hred, if_pos (by omega : pos.volume - cq = 0)]
    exact assocGet_assocErase_self _ _
  · intro hNe
    rw [hred, if_neg (by omega : ¬ pos.volume - cq = 0)]
    exact assocGet_assocSet_self _ _ _


/-- Claim C6, amended: for every close trade applied by `UpdatePosition`
against an existing opposite-direction position (bucket invariant
`today + yesterday = volume`, volume < 2^32), with closed quantity
cq = min(qty, today) for CloseToday, min(qty, yesterday) for
CloseYesterday, min(qty, volume) with today drained first for generic
Close, and provided cq > 0 (a trade whose computed closed quantity is 0
returns with the position, account and margin untouched): the realized
P&L — (price − avg)·cq closing a long, (avg − price)·cq closing a short —
is added to close_profit and daily_pnl; volume, today_volume and
yesterday_volume drop by the splits; the entry is deleted exactly when
volume reaches 0, and otherwise its margin is recomputed at the trade
price. -/
theorem c6_update_position_close (cfg : Sim.SimConfig) (st : Sim.SimState)
    (trade : Plugin.TradeInfo) (pos : Sim.InternalPosition)
    (cq ct cy : Nat) (pnl : ℚ)
    (hoff : trade.offset ≠ .OPEN)
    (hpos : assocGet st.positions
      (Sim.posKey trade.symbol (Sim.closeDirectionOf trade.direction)) = some pos)
    (hvol : pos.volume ≠ 0)
    (hsum : pos.today_volume + pos.yesterday_volume = pos.volume)
    (hlt : pos.volume < Sim.U32MOD)
    (hcq : cq = if trade.offset = .CLOSE_TODAY then min trade.volume pos.today_volume
                else if trade.offset = .CLOSE_YESTERDAY then min trade.volume pos.yesterday_volume
                else min trade.volume pos.volume)
    (hct : ct = if trade.offset = .CLOSE_TODAY then cq
                else if trade.offset = .CLOSE_YESTERDAY then 0
                else min cq pos.today_volume)
    (hcy : cy = cq - ct)
    (hpnl : pnl =
      if Sim.closeDirectionOf trade.direction = Plugin.OrderDirection.BUY
      then (trade.price - pos.avg_price) * (cq : ℚ)
      else (pos.avg_price - trade.price) * (cq : ℚ))
    (hcqpos : 0 < cq) :
    (Sim.updatePosition cfg st trade).account.close_profit =
      st.account.close_profit + pnl ∧
    (Sim.updatePosition cfg st trade).account.daily_pnl =
      st.account.daily_pnl + pnl ∧
    (pos.volume = cq →
      assocGet (Sim.updatePosition cfg st trade).positions
        (Sim.posKey trade.symbol (Sim.closeDirectionOf trade.direction)) = none) ∧
    (pos.volume ≠ cq →
      assocGet (Sim.updatePosition cfg st trade).positions
        (Sim.posKey trade.symbol (Sim.closeDirectionOf trade.direction)) =
        some { pos with
          volume := pos.volume - cq
          today_volume := pos.today_volume - ct
          yesterday_volume := pos.yesterday_volume - cy
          margin := Sim.calculateMargin cfg trade.symbol trade.price (pos.volume - cq) }) := by
  have htlt : pos.today_volume < Sim.U32MOD := by omega
  have hylt : pos.yesterday_volume < Sim.U32MOD := by omega
  cases hof : trade.offset with
  | OPEN => exact absurd hof hoff
  | CLOSE_TODAY =>
    rw [hof] at hcq hct
    simp only [reduceCtorEq, if_true, if_false, reduceIte] at hcq hct
    refine c6_close_core cfg st trade pos cq ct cy pnl hoff hpos hvol hlt htlt hylt
      (by omega) (by omega) (by omega) ?_ hpnl hcqpos
    rw [hof]
    simp only [reduceCtorEq, reduceIte, Prod.mk.injEq]
    omega
  | CLOSE_YESTERDAY =>
    rw [hof] at hcq hct
    simp only [reduceCtorEq, if_true, if_false, reduceIte] at hcq hct
    refine c6_close_core cfg st trade pos cq ct cy pnl hoff hpos hvol hlt htlt hylt
      (by omega) (by omega) (by omega) ?_ hpnl hcqpos
    rw [hof]
    simp only [reduceCtorEq, reduceIte, Prod.mk.injEq]
    omega
  | CLOSE =>
    rw [hof] at hcq hct
    simp only [reduceCtorEq, if_true, if_false, reduceIte] at hcq hct
    refine c6_close_core cfg st trade pos cq ct cy pnl hoff hpos hvol hlt htlt hylt
      (by omega) (by omega) (by omega) ?_ hpnl hcqpos
    rw [hof]
    simp only [reduceCtorEq, reduceIte, Prod.mk.injEq]
    by_cases htc : pos.today_volume ≥ min trade.volume pos.volume <;>
      simp only [htc, reduceIte, if_true, if_false, Prod.mk.injEq] <;> omega

/-- Witness for C6: selling 2 @ 110 with generic Close against a long of 3
(2 today + 1 yesterday, average 100) realizes 20 into close_profit and
leaves the entry at volume 1 (today 0, yesterday 1) with its margin
recomputed at 110. -/
theorem c6_update_position_close_witness :
    (c6Trade.offset ≠ .OPEN ∧ c6Pos.volume ≠ 0 ∧
     c6Pos.today_volume + c6Pos.yesterday_volume = c6Pos.volume ∧ (0 : Nat) < 2) ∧
    (Sim.updatePosition simCfg c6St c6Trade).account.close_profit =
      c6St.account.close_profit + 20 ∧
    assocGet (Sim.updatePosition simCfg c6St c6Trade).positions
      (Sim.posKey c6Trade.symbol (Sim.closeDirectionOf c6Trade.direction)) =
      some { c6Pos with
        volume := 1
        today_volume := 0
        yesterday_volume := 1
        margin := Sim.calculateMargin simCfg c6Trade.symbol c6Trade.price 1 } := by
  have h := c6_update_position_close simCfg c6St c6Trade c6Pos 2 2 0 20
    (by decide) (by decide) (by decide) (by decide) (by decide)
    (by decide) (by decide) (by decide) (by decide) (by decide)
  exact ⟨⟨by decide, by decide, by decide, by decide⟩, h.1,
    (h.2.2.2 (by decide)).trans (by decide)⟩

/-- Claim C6, counterexample: a CloseToday sell of 3 against an existing
long of 5 whose today bucket is empty computes closed quantity
min(3, 0) = 0 and returns with the state untouched — in particular the
surviving entry keeps its stale margin 999 instead of the recomputed
margin the claim requires on the volume-not-zero path. -/
theorem c6_update_position_close_counterexample :
    Sim.updatePosition simCfg c6BadSt c6BadTrade = c6BadSt ∧
    assocGet (Sim.updatePosition simCfg c6BadSt c6BadTrade).positions "ag2506_LONG" =
      some c6BadPos ∧
    c6BadPos.volume ≠ 0 ∧
    c6BadPos.margin ≠
      Sim.calculateMargin simCfg c6BadTrade.symbol c6BadTrade.price c6BadPos.volume := by
  decide


-- ============================================================
-- C7 development
-- ============================================================

theorem c7_open_step (cfg : Sim.SimConfig) (st : Sim.SimState)
    (t : Plugin.TradeInfo) (v : Nat) (c : ℚ)
    (hto : t.offset = .OPEN)
    (h1 : ((assocGet st.positions (Sim.posKey t.symbol t.direction)).getD
      Sim.defaultPosition).volume = v)
    (h2 : ((assocGet st.positions (Sim.posKey t.symbol t.direction)).getD
      Sim.defaultPosition).total_volume_traded = (v : ℚ))
    (h3 : ((assocGet st.positions (Sim.posKey t.symbol t.direction)).getD
      Sim.defaultPosition).total_cost = c)
    (h4 : ((assocGet st.positions (Sim.posKey t.symbol t.direction)).getD
      Sim.defaultPosition).avg_price = c / (v : ℚ))
    (h5 : v = 0 → c = 0)
    (hb : v + t.volume < Sim.U32MOD) :
    ((assocGet (Sim.updatePosition cfg st t).positions
        (Sim.posKey t.symbol t.direction)).getD Sim.defaultPosition).volume =
      v + t.volume ∧
    ((assocGet (Sim.updatePosition cfg st t).positions
        (Sim.posKey t.symbol t.direction)).getD Sim.defaultPosition).total_volume_traded =
      ((v + t.volume : Nat) : ℚ) ∧
    ((assocGet (Sim.updatePosition cfg st t).positions
        (Sim.posKey t.symbol t.direction)).getD Sim.defaultPosition).total_cost =
      c + t.price * (t.volume : ℚ) ∧
    ((assocGet (Sim.updatePosition cfg st t).positions
        (Sim.posKey t.symbol t.direction)).getD Sim.defaultPosition).avg_price =
      (c + t.price * (t.volume : ℚ)) / ((v + t.volume : Nat) : ℚ) ∧
    (v + t.volume = 0 → c + t.price * (t.volume : ℚ) = 0) := by
  have hcost : ((assocGet st.positions (Sim.posKey t.symbol t.direction)).getD
      Sim.defaultPosition).avg_price *
      (((assocGet st.positions (Sim.posKey t.symbol t.direction)).getD
        Sim.defaultPosition).volume : ℚ) = c := by
    rw [h4, h1]
    by_cases hv : v = 0
    · simp [hv, h5 hv]
    · rw [div_mul_cancel₀]
      exact Nat.cast_ne_zero.mpr hv
  unfold Sim.updatePosition
  dsimp only
  rw [if_pos hto]
  rw [assocGet_assocSet_self]
  simp only [Option.getD_some]
  -- the init-reset branch only touches non-numeric fields
  by_cases hinit :
      ((assocGet st.positions (Sim.posKey t.symbol t.direction)).getD
        Sim.defaultPosition).volume = 0 ∧
      ((assocGet st.positions (Sim.posKey t.symbol t.direction)).getD
        Sim.defaultPosition).total_volume_traded = 0
  · rw [if_pos hinit]
    try dsimp only
    rw [hcost, h1, h2, add32_eq_of_lt hb]
    refine ⟨rfl, by push_cast; ring, rfl, by push_cast; ring_nf, fun h0 => ?_⟩
    have hv0 : v = 0 ∧ t.volume = 0 := by omega
    simp [hv0.2, h5 hv0.1]
  · rw [if_neg hinit]
    try dsimp only
    rw [hcost, h1, h2, add32_eq_of_lt hb]
    refine ⟨rfl, by push_cast; ring, rfl, by push_cast; ring_nf, fun h0 => ?_⟩
    have hv0 : v = 0 ∧ t.volume = 0 := by omega
    simp [hv0.2, h5 hv0.1]


theorem c7_open_fold (cfg : Sim.SimConfig) (s : String) (d : Plugin.OrderDirection) :
    ∀ (ts : List Plugin.TradeInfo) (st : Sim.SimState) (v : Nat) (c : ℚ),
      (∀ t ∈ ts, t.offset = .OPEN ∧ t.symbol = s ∧ t.direction = d) →
      ((assocGet st.positions (Sim.posKey s d)).getD Sim.defaultPosition).volume = v →
      ((assocGet st.positions (Sim.posKey s d)).getD Sim.defaultPosition).total_volume_traded = (v : ℚ) →
      ((assocGet st.positions (Sim.posKey s d)).getD Sim.defaultPosition).total_cost = c →
      ((assocGet st.positions (Sim.posKey s d)).getD Sim.defaultPosition).avg_price = c / (v : ℚ) →
      (v = 0 → c = 0) →
      v + Sim.sumQty ts < Sim.U32MOD →
      (((assocGet (Sim.applyTrades cfg st ts).positions (Sim.posKey s d)).getD
          Sim.defaultPosition).volume = v + Sim.sumQty ts ∧
       ((assocGet (Sim.applyTrades cfg st ts).positions (Sim.posKey s d)).getD
          Sim.defaultPosition).total_volume_traded = ((v + Sim.sumQty ts : Nat) : ℚ) ∧
       ((assocGet (Sim.applyTrades cfg st ts).positions (Sim.posKey s d)).getD
          Sim.defaultPosition).total_cost = c + Sim.sumCost ts ∧
       ((assocGet (Sim.applyTrades cfg st ts).positions (Sim.posKey s d)).getD
          Sim.defaultPosition).avg_price =
         (c + Sim.sumCost ts) / ((v + Sim.sumQty ts : Nat) : ℚ) ∧
       (v + Sim.sumQty ts = 0 → c + Sim.sumCost ts = 0)) := by
  intro ts
  induction ts with
  | nil =>
    intro st v c _ h1 h2 h3 h4 h5 _
    simp only [Sim.applyTrades, List.foldl_nil, Sim.sumQty, Sim.sumCost,
      Nat.add_zero, add_zero]
    exact ⟨h1, h2, h3, h4, h5⟩
  | cons t ts ih =>
    intro st v c hts h1 h2 h3 h4 h5 hb
    obtain ⟨hto, hsym, hdir⟩ := hts t (List.mem_cons_self t ts)
    have hkey : Sim.posKey t.symbol t.direction = Sim.posKey s d := by
      rw [hsym, hdir]
    have hb1 : v + t.volume < Sim.U32MOD := by
      have : Sim.sumQty (t :: ts) = t.volume + Sim.sumQty ts := rfl
      omega
    have hstep := c7_open_step cfg st t v c hto (hkey ▸ h1) (hkey ▸ h2)
      (hkey ▸ h3) (hkey ▸ h4) h5 hb1
    rw [hkey] at hstep
    have happ : Sim.applyTrades cfg st (t :: ts) =
        Sim.applyTrades cfg (Sim.updatePosition cfg st t) ts := rfl
    rw [happ]
    have hrec := ih (Sim.updatePosition cfg st t) (v + t.volume)
      (c + t.price * (t.volume : ℚ))
      (fun u hu => hts u (List.mem_cons_of_mem t hu))
      hstep.1 hstep.2.1 hstep.2.2.1 hstep.2.2.2.1 hstep.2.2.2.2
      (by have : Sim.sumQty (t :: ts) = t.volume + Sim.sumQty ts := rfl; omega)
    have hq : v + t.volume + Sim.sumQty ts = v + Sim.sumQty (t :: ts) := by
      have : Sim.sumQty (t :: ts) = t.volume + Sim.sumQty ts := rfl
      omega
    have hc : c + t.price * (t.volume : ℚ) + Sim.sumCost ts = c + Sim.sumCost (t :: ts) := by
      have : Sim.sumCost (t :: ts) = t.price * (t.volume : ℚ) + Sim.sumCost ts := rfl
      rw [this]; ring
    rw [hq, hc] at hrec
    exact hrec

/-- Claim C7, amended: for a position built from opening trades alone — no
close trades interleaved (starting from a state with no entry at the
position's key, all trades Open with the same symbol and direction, total
quantity below 2^32) — the resulting avg_price equals
(Σ tᵢ.price × tᵢ.qty) / (Σ tᵢ.qty), the volume-weighted average of the
opening trade prices.  (With interleaved closes the code divides by the
never-decremented total_volume_traded and the equation fails; see the
counterexample.) -/
theorem c7_avg_price_vwap (cfg : Sim.SimConfig) (s : String)
    (d : Plugin.OrderDirection) (ts : List Plugin.TradeInfo) (st : Sim.SimState)
    (hts : ∀ t ∈ ts, t.offset = .OPEN ∧ t.symbol = s ∧ t.direction = d)
    (h0 : assocGet st.positions (Sim.posKey s d) = none)
    (hb : Sim.sumQty ts < Sim.U32MOD) :
    ((assocGet (Sim.applyTrades cfg st ts).positions (Sim.posKey s d)).getD
        Sim.defaultPosition).avg_price =
      Sim.sumCost ts / ((Sim.sumQty ts : Nat) : ℚ) := by
  have h := c7_open_fold cfg s d ts st 0 0 hts
    (by rw [h0]; rfl) (by rw [h0]; simp [Sim.defaultPosition])
    (by rw [h0]; rfl) (by rw [h0]; simp [Sim.defaultPosition])
    (fun _ => rfl) (by omega)
  have := h.2.2.2.1
  simpa using this


/-- Witness for C7: opening 2 @ 100 then 1 @ 120 from a clean state gives
avg_price = (100·2 + 120·1)/(2+1). -/
theorem c7_avg_price_vwap_witness :
    (∀ t ∈ [tOpen2At100, tOpen1At120],
      t.offset = Plugin.OffsetFlag.OPEN ∧ t.symbol = "ag2506" ∧
      t.direction = Plugin.OrderDirection.BUY) ∧
    assocGet emptySimState.positions (Sim.posKey "ag2506" .BUY) = none ∧
    ((assocGet (Sim.applyTrades simCfg emptySimState
        [tOpen2At100, tOpen1At120]).positions
        (Sim.posKey "ag2506" .BUY)).getD Sim.defaultPosition).avg_price =
      Sim.sumCost [tOpen2At100, tOpen1At120] /
        ((Sim.sumQty [tOpen2At100, tOpen1At120] : Nat) : ℚ) :=
  ⟨by decide, by decide,
    c7_avg_price_vwap simCfg "ag2506" .BUY [tOpen2At100, tOpen1At120]
      emptySimState (by decide) (by decide) (by decide)⟩

/-- Claim C7, counterexample: open 2 @ 100, close 1 @ 110, open 1 @ 120.
The code reuses `avg_price * volume` (100·1 = 100) as the old cost but
divides by the never-decremented `total_volume_traded` (3), giving
avg_price = 220/3 ≈ 73.3 — different from the volume-weighted average of
the opening trades (320/3 ≈ 106.7) and from the volume-weighted average of
the currently held lots (1 @ 100 + 1 @ 120 → 110), so the claimed equation
fails once close trades are interleaved. -/
theorem c7_avg_price_vwap_counterexample :
    ((assocGet (Sim.applyTrades simCfg emptySimState
        [tOpen2At100, tClose1At110, tOpen1At120]).positions
        (Sim.posKey "ag2506" .BUY)).getD Sim.defaultPosition).avg_price = 220/3 ∧
    (220 : ℚ)/3 ≠ (100 * 2 + 120 * 1) / (2 + 1) ∧
    (220 : ℚ)/3 ≠ (100 + 120) / 2 := by
  decide

end QTS
